import Mathlib

/-!
Shallow embedding of the vbb Go client (github.com/andrewslotin/vbb).

The repository holds two generations of the client:
* generation A, in `vbb.go`, targeting the v5 endpoint (flat `Location`,
  `[]Departure` response bodies, RFC3339 `when` encoding, query parameters
  built but not appended to the departures/arrivals path);
* generation B, in the second source file, targeting the v6 endpoint
  (HAFAS `Location` marshalling with a nested coordinate object, envelope
  response bodies, `-0700` style `when` encoding, arrivals direction
  normalization from the provenance field).

Definitions in this file are named after the Go symbols they embed, with
prefixes `V5` and `V6` for the two generations.  Machine integers are
modelled as `Nat`/`Int`; `float64` values that are only copied around are
modelled as `Rat`; `float64` arithmetic on durations is modelled by exact
integer arithmetic on nanoseconds.
-/

/-! ### Decimal rendering helpers (strconv.Itoa, zero padding) -/

/-- Decimal digit character for a digit below 10. -/
def digitChar (d : Nat) : Char := Char.ofNat (48 + d)

/-- Fuel-driven most-significant-first decimal digits of a natural number. -/
def natDigitsAux : Nat → Nat → List Char
  | 0, _ => []
  | fuel + 1, n =>
    if n < 10 then [digitChar n]
    else natDigitsAux fuel (n / 10) ++ [digitChar (n % 10)]

/-- Decimal digits of a natural number, as rendered by the Go strconv package. -/
def natDigits (n : Nat) : List Char := natDigitsAux (n + 1) n

/-- Zero-pad the decimal rendering of `n` to width `w`, keeping every digit
when `n` needs more than `w` digits; this is how the Go time package renders
fixed-width numeric fields. -/
def padNat (w n : Nat) : List Char :=
  List.replicate (w - (natDigits n).length) '0' ++ natDigits n

/-- strconv.Itoa on an integer. -/
def intToStr (i : Int) : String :=
  if i < 0 then "-" ++ String.mk (natDigits i.natAbs) else String.mk (natDigits i.natAbs)

/-- strconv.FormatBool. -/
def formatBool (b : Bool) : String := if b then "true" else "false"

/-! ### url.Values and its Encode method -/

/-- Go url.Values restricted to single-valued keys, as used by this client:
an association list where `set` replaces any existing entry for the key. -/
abbrev Values := List (String × String)

/-- url.Values.Set: replace the value associated with a key. -/
def Values.set (q : Values) (k v : String) : Values :=
  (k, v) :: q.filter (fun p => p.1 != k)

/-- Observer: the value held for a key, if any. -/
def Values.lookup (q : Values) (k : String) : Option String :=
  (q.find? (fun p => p.1 == k)).map (fun p => p.2)

/-- ASCII lower-casing of a character. -/
def lowerChar (c : Char) : Char :=
  if 65 ≤ c.toNat ∧ c.toNat ≤ 90 then Char.ofNat (c.toNat + 32) else c

/-- ASCII lower-casing of a string. -/
def lowerStr (s : String) : String := String.mk (s.data.map lowerChar)

/-- Byte-wise (here: character-wise) lexicographic comparison, matching how
sort.Strings orders the ASCII keys that occur in this client. -/
def leChars : List Char → List Char → Bool
  | [], _ => true
  | _ :: _, [] => false
  | a :: as, b :: bs => if a = b then leChars as bs else decide (a.toNat ≤ b.toNat)

/-- Insertion step of the key sort performed by url.Values.Encode. -/
def insertSorted (p : String × String) : List (String × String) → List (String × String)
  | [] => [p]
  | q :: rest => if leChars p.1.data q.1.data then p :: q :: rest else q :: insertSorted p rest

/-- Sort an association list by key, as url.Values.Encode sorts its keys. -/
def sortByKey : List (String × String) → List (String × String)
  | [] => []
  | p :: rest => insertSorted p (sortByKey rest)

/-- Characters that url.QueryEscape leaves unescaped. -/
def shouldEscape (c : Char) : Bool :=
  !(c.isAlphanum || c == '-' || c == '_' || c == '.' || c == '~')

/-- Upper-case hexadecimal digit. -/
def hexDigitUpper (n : Nat) : Char :=
  if n < 10 then digitChar n else Char.ofNat (55 + n)

/-- Escape one character the way url.QueryEscape escapes one byte (the strings
this client escapes are ASCII, so characters and bytes coincide). -/
def escapeChar (c : Char) : List Char :=
  if c == ' ' then ['+']
  else if shouldEscape c then ['%', hexDigitUpper (c.toNat / 16), hexDigitUpper (c.toNat % 16)]
  else [c]

/-- url.QueryEscape on an ASCII string. -/
def queryEscape (s : String) : String :=
  String.mk (s.data.foldr (fun c acc => escapeChar c ++ acc) [])

/-- url.Values.Encode: sort by key, escape keys and values, join with
ampersands. -/
def Values.encode (q : Values) : String :=
  String.intercalate "&" ((sortByKey q).map (fun p => queryEscape p.1 ++ "=" ++ queryEscape p.2))

/-! ### time.Time and the two layout strings used by the client -/

/-- Calendar view of a Go time.Time value: the components that the two layout
strings used by this client render, with the zone offset in minutes east of
UTC.  Only formatting is modelled; time arithmetic never occurs in the
client. -/
structure GoTime where
  year : Nat
  month : Nat
  day : Nat
  hour : Nat
  minute : Nat
  second : Nat
  offsetMinutes : Int
  deriving DecidableEq

/-- Rendering of the layout token -0700: sign, then hours and minutes of the
zone offset, each zero-padded to two digits, with no separator. -/
def tzNumeric (o : Int) : List Char :=
  (if o < 0 then '-' else '+') :: (padNat 2 (o.natAbs / 60) ++ padNat 2 (o.natAbs % 60))

/-- Rendering of the layout token Z07:00: the single character Z for UTC,
otherwise sign, two-digit hours, a colon and two-digit minutes. -/
def tzColonOrZ (o : Int) : List Char :=
  if o = 0 then ['Z']
  else (if o < 0 then '-' else '+') :: (padNat 2 (o.natAbs / 60) ++ ':' :: padNat 2 (o.natAbs % 60))

/-- Interpreter for the subset of Go time layout tokens that occur in the two
layout strings used by this client (2006, 01, 02, 15, 04, 05, Z07:00, -0700);
any other character is copied verbatim, as the Go time package does. -/
def goFormatAux (t : GoTime) : List Char → List Char
  | '2' :: '0' :: '0' :: '6' :: rest => padNat 4 t.year ++ goFormatAux t rest
  | 'Z' :: '0' :: '7' :: ':' :: '0' :: '0' :: rest => tzColonOrZ t.offsetMinutes ++ goFormatAux t rest
  | '-' :: '0' :: '7' :: '0' :: '0' :: rest => tzNumeric t.offsetMinutes ++ goFormatAux t rest
  | '1' :: '5' :: rest => padNat 2 t.hour ++ goFormatAux t rest
  | '0' :: '1' :: rest => padNat 2 t.month ++ goFormatAux t rest
  | '0' :: '2' :: rest => padNat 2 t.day ++ goFormatAux t rest
  | '0' :: '4' :: rest => padNat 2 t.minute ++ goFormatAux t rest
  | '0' :: '5' :: rest => padNat 2 t.second ++ goFormatAux t rest
  | c :: rest => c :: goFormatAux t rest
  | [] => []

/-- time.Time.Format for the layouts used by this client. -/
def goFormat (layout : String) (t : GoTime) : String := String.mk (goFormatAux t layout.data)

/-- The time.RFC3339 layout constant, used by generation A for the when
parameter. -/
def RFC3339 : String := "2006-01-02T15:04:05Z07:00"

/-- The literal layout string used by generation B for the when parameter. -/
def whenLayoutV6 : String := "2006-01-02T15:04:05-0700"

/-! ### TransportationType and its constants

In the Go source the constants are declared as

  SuburbanTrain TransportationType = 1<<iota + 1

and so on.  Go parses this as (1 shifted left by iota) plus one, because the
shift binds tighter than the addition, so the seven constants are 2, 3, 5, 9,
17, 33 and 65 rather than seven disjoint bits. -/

/-- Fuel-limited bitwise conjunction, low bit first. -/
def andBitsAux : Nat → Nat → Nat → Nat
  | 0, _, _ => 0
  | fuel + 1, a, b =>
    (if a % 2 = 1 ∧ b % 2 = 1 then 1 else 0) + 2 * andBitsAux fuel (a / 2) (b / 2)

/-- Fuel-limited bitwise disjunction, low bit first. -/
def orBitsAux : Nat → Nat → Nat → Nat
  | 0, _, _ => 0
  | fuel + 1, a, b =>
    (if a % 2 = 1 ∨ b % 2 = 1 then 1 else 0) + 2 * orBitsAux fuel (a / 2) (b / 2)

/-- Bitwise and on the eight bits of a Go uint8. -/
def uint8And (a b : Nat) : Nat := andBitsAux 8 a b

/-- Bitwise or on the eight bits of a Go uint8. -/
def uint8Or (a b : Nat) : Nat := orBitsAux 8 a b

/-- TransportationType is a Go uint8; values stay below 256. -/
abbrev TransportationType := Nat

/-- Go constant 1 shifted by iota 0, plus 1. -/
def SuburbanTrain : TransportationType := (1 <<< 0) + 1

/-- Go constant 1 shifted by iota 1, plus 1. -/
def Subway : TransportationType := (1 <<< 1) + 1

/-- Go constant 1 shifted by iota 2, plus 1. -/
def Tram : TransportationType := (1 <<< 2) + 1

/-- Go constant 1 shifted by iota 3, plus 1. -/
def Bus : TransportationType := (1 <<< 3) + 1

/-- Go constant 1 shifted by iota 4, plus 1. -/
def Ferry : TransportationType := (1 <<< 4) + 1

/-- Go constant 1 shifted by iota 5, plus 1. -/
def ExpressTrain : TransportationType := (1 <<< 5) + 1

/-- Go constant 1 shifted by iota 6, plus 1. -/
def RegionalTrain : TransportationType := (1 <<< 6) + 1

/-- Union of every mode except ExpressTrain, per the source. -/
def UrbanTransport : TransportationType :=
  uint8Or SuburbanTrain (uint8Or Subway (uint8Or Tram (uint8Or Bus (uint8Or Ferry RegionalTrain))))

/-- Union of UrbanTransport and ExpressTrain. -/
def AllTransport : TransportationType := uint8Or UrbanTransport ExpressTrain

/-! ### Durations

Go time.Duration is a count of nanoseconds; Minutes() divides by the number
of nanoseconds per minute.  The float64 arithmetic of Minutes() is modelled
exactly on the nanosecond count: generation B truncates the quotient toward
zero (the Go int conversion), generation A rounds it to the nearest integer
with ties to even (FormatFloat with format f and precision 0). -/

/-- Nanoseconds in a minute. -/
def nsPerMinute : Nat := 60000000000

/-- Quotient truncated toward zero, the Go conversion from float64 to int. -/
def truncDiv (a : Int) (b : Nat) : Int :=
  if a < 0 then -(((-a).toNat / b : Nat) : Int) else ((a.toNat / b : Nat) : Int)

/-- Quotient rounded to the nearest integer with ties to even, the rounding
strconv.FormatFloat performs at precision zero. -/
def roundHalfEvenDiv (a : Int) (b : Nat) : Int :=
  let f := Int.fdiv a (b : Int)
  let r := a - f * (b : Int)
  if 2 * r < (b : Int) then f
  else if (b : Int) < 2 * r then f + 1
  else if f % 2 = 0 then f else f + 1

/-! ### Generation A (vbb.go, v5 endpoint): data model and requests -/

/-- Line as declared in both generations: a name and a product string. -/
structure Line where
  Name : String
  Product : String
  deriving DecidableEq

/-- Departure of generation A; platforms are Go ints there.  The two
time.Time fields are only carried, never computed with, and are modelled by
their wire text. -/
structure V5.Departure where
  Direction : String
  When : String
  PlannedWhen : String
  Delay : Int
  Platform : Int
  PlannedPlatform : Int
  Line : Line
  deriving DecidableEq

/-- Location of generation A: a flat record of four strings.  The Go field
named Type is rendered `type` here because Type is reserved in Lean. -/
structure V5.Location where
  type : String
  ID : String
  Name : String
  Address : String
  deriving DecidableEq

/-- Query values built by the generation A Departures method: when in
RFC3339, duration via FormatFloat at precision zero, pretty, and the seven
mode booleans, each true when the uint8 conjunction with the mode constant is
nonzero. -/
def V5.departuresQuery (when : GoTime) (duration : Int) (transportTypes : TransportationType) : Values :=
  let q : Values := []
  let q := Values.set q "when" (goFormat RFC3339 when)
  let q := Values.set q "duration" (intToStr (roundHalfEvenDiv duration nsPerMinute))
  let q := Values.set q "pretty" "false"
  let q := Values.set q "suburban" (formatBool (uint8And transportTypes SuburbanTrain != 0))
  let q := Values.set q "subway" (formatBool (uint8And transportTypes Subway != 0))
  let q := Values.set q "tram" (formatBool (uint8And transportTypes Tram != 0))
  let q := Values.set q "bus" (formatBool (uint8And transportTypes Bus != 0))
  let q := Values.set q "ferry" (formatBool (uint8And transportTypes Ferry != 0))
  let q := Values.set q "express" (formatBool (uint8And transportTypes ExpressTrain != 0))
  Values.set q "regional" (formatBool (uint8And transportTypes RegionalTrain != 0))

/-- Query values built by the generation A Arrivals method; the source body
is identical to the Departures one. -/
def V5.arrivalsQuery (when : GoTime) (duration : Int) (transportTypes : TransportationType) : Values :=
  V5.departuresQuery when duration transportTypes

/-- The generation A Departures method builds its query values and then
passes the bare path to sendRequest, so the outgoing URL is the endpoint
concatenated with the path and the query values are dropped.  The pair holds
the built values and the URL handed to http.NewRequest. -/
def V5.departuresRequest (endpoint stopID : String) (when : GoTime) (duration : Int)
    (transportTypes : TransportationType) : Values × String :=
  (V5.departuresQuery when duration transportTypes,
   endpoint ++ "/stops/" ++ stopID ++ "/departures")

/-- Generation A Arrivals: same shape as Departures with the arrivals path. -/
def V5.arrivalsRequest (endpoint stopID : String) (when : GoTime) (duration : Int)
    (transportTypes : TransportationType) : Values × String :=
  (V5.arrivalsQuery when duration transportTypes,
   endpoint ++ "/stops/" ++ stopID ++ "/arrivals")

/-! ### Generation B (v6 endpoint): queries and requests -/

/-- addTransportTypeParams of generation B: set the seven mode booleans. -/
def addTransportTypeParams (q : Values) (transportTypes : TransportationType) : Values :=
  let q := Values.set q "suburban" (formatBool (uint8And transportTypes SuburbanTrain != 0))
  let q := Values.set q "subway" (formatBool (uint8And transportTypes Subway != 0))
  let q := Values.set q "tram" (formatBool (uint8And transportTypes Tram != 0))
  let q := Values.set q "bus" (formatBool (uint8And transportTypes Bus != 0))
  let q := Values.set q "ferry" (formatBool (uint8And transportTypes Ferry != 0))
  let q := Values.set q "express" (formatBool (uint8And transportTypes ExpressTrain != 0))
  Values.set q "regional" (formatBool (uint8And transportTypes RegionalTrain != 0))

/-- Query values built by the generation B Departures method: the seven mode
booleans, then when in the explicit numeric-offset layout, duration via the
int conversion of Minutes(), and pretty. -/
def V6.departuresQuery (when : GoTime) (duration : Int) (transportTypes : TransportationType) : Values :=
  let q := addTransportTypeParams [] transportTypes
  let q := Values.set q "when" (goFormat whenLayoutV6 when)
  let q := Values.set q "duration" (intToStr (truncDiv duration nsPerMinute))
  Values.set q "pretty" "false"

/-- Query values built by the generation B Arrivals method; the source body
is identical to the Departures one. -/
def V6.arrivalsQuery (when : GoTime) (duration : Int) (transportTypes : TransportationType) : Values :=
  V6.departuresQuery when duration transportTypes

/-- Generation B Departures request: the stop identifier is spliced into the
path verbatim and the encoded query is appended after a question mark. -/
def V6.departuresRequest (endpoint stopID : String) (when : GoTime) (duration : Int)
    (transportTypes : TransportationType) : Values × String :=
  let q := V6.departuresQuery when duration transportTypes
  (q, endpoint ++ "/stops/" ++ stopID ++ "/departures?" ++ Values.encode q)

/-- Generation B Arrivals request. -/
def V6.arrivalsRequest (endpoint stopID : String) (when : GoTime) (duration : Int)
    (transportTypes : TransportationType) : Values × String :=
  let q := V6.arrivalsQuery when duration transportTypes
  (q, endpoint ++ "/stops/" ++ stopID ++ "/arrivals?" ++ Values.encode q)

/-! ### JSON values and the encoding/json behaviour the client relies on -/

/-- JSON values; numbers are modelled exactly as rationals, which is faithful
for the copy-only use the client makes of float64 coordinates. -/
inductive Json where
  | null : Json
  | bool : Bool → Json
  | num : Rat → Json
  | str : String → Json
  | arr : List Json → Json
  | obj : List (String × Json) → Json

/-- Field lookup of encoding/json: an exact name match wins, otherwise an
ASCII case-insensitive match is accepted. -/
def Json.field? (j : Json) (name : String) : Option Json :=
  match j with
  | .obj fields =>
    match (fields.find? (fun p => p.1 == name)).map (fun p => p.2) with
    | some v => some v
    | none => (fields.find? (fun p => lowerStr p.1 == lowerStr name)).map (fun p => p.2)
  | _ => none

/-- Decode a string struct field: a missing or null field keeps the zero
value, a string is taken verbatim, anything else is a decode error. -/
def Json.getStrD (j : Json) (name : String) : Except String String :=
  match Json.field? j name with
  | none => .ok ""
  | some .null => .ok ""
  | some (.str s) => .ok s
  | some _ => .error "json: cannot unmarshal value into string field"

/-- Decode a float64 struct field, defaulting to zero. -/
def Json.getNumD (j : Json) (name : String) : Except String Rat :=
  match Json.field? j name with
  | none => .ok 0
  | some .null => .ok 0
  | some (.num q) => .ok q
  | some _ => .error "json: cannot unmarshal value into float64 field"

/-- Decode an int struct field, defaulting to zero; a fractional number is a
decode error, as in encoding/json. -/
def Json.getIntD (j : Json) (name : String) : Except String Int :=
  match Json.field? j name with
  | none => .ok 0
  | some .null => .ok 0
  | some (.num q) => if q.den = 1 then .ok q.num else .error "json: cannot unmarshal fractional number into int field"
  | some _ => .error "json: cannot unmarshal value into int field"

/-- Decode a bool struct field, defaulting to false. -/
def Json.getBoolD (j : Json) (name : String) : Except String Bool :=
  match Json.field? j name with
  | none => .ok false
  | some .null => .ok false
  | some (.bool b) => .ok b
  | some _ => .error "json: cannot unmarshal value into bool field"

/-- Decode a slice: null stays the empty (nil) slice, an array decodes
element-wise, anything else is a decode error. -/
def decodeList {α : Type} (dec : Json → Except String α) : Json → Except String (List α)
  | .null => .ok []
  | .arr xs => xs.mapM dec
  | _ => .error "json: cannot unmarshal value into slice"

/-! ### Generation B Location and its HAFAS wire shape -/

/-- Location of generation B.  The Go field named Type is rendered `type`. -/
structure V6.Location where
  type : String
  ID : String
  Name : String
  Address : String
  Latitude : Rat
  Longitude : Rat
  Distance : Int
  deriving DecidableEq

/-- The anonymous nested coordinate struct inside hafasLocation. -/
structure hafasInnerLocation where
  type : String
  Latitude : Rat
  Longitude : Rat
  deriving DecidableEq

/-- The hafasLocation wire struct of generation B; Address, Latitude,
Longitude and POI carry the omitempty tag, Location is a nullable pointer. -/
structure hafasLocation where
  type : String
  ID : String
  Name : String
  Address : String
  Location : Option hafasInnerLocation
  Latitude : Rat
  Longitude : Rat
  POI : Bool
  deriving DecidableEq

/-- json.Marshal of the nested coordinate struct (no omitempty inside). -/
def hafasInnerLocation.toJson (l : hafasInnerLocation) : Json :=
  .obj [("Type", .str l.type), ("Latitude", .num l.Latitude), ("Longitude", .num l.Longitude)]

/-- json.Marshal of hafasLocation: fields in declaration order, omitting the
omitempty fields at their zero values and the Location pointer when nil. -/
def hafasLocation.toJson (h : hafasLocation) : Json :=
  .obj ([("Type", Json.str h.type), ("ID", Json.str h.ID), ("Name", Json.str h.Name)]
    ++ (if h.Address = "" then [] else [("Address", Json.str h.Address)])
    ++ (match h.Location with
        | none => []
        | some l => [("Location", hafasInnerLocation.toJson l)])
    ++ (if h.Latitude = 0 then [] else [("Latitude", Json.num h.Latitude)])
    ++ (if h.Longitude = 0 then [] else [("Longitude", Json.num h.Longitude)])
    ++ (if h.POI then [("POI", Json.bool true)] else []))

/-- json.Unmarshal into the nested coordinate struct. -/
def hafasInnerLocation.fromJson (j : Json) : Except String hafasInnerLocation :=
  match Json.getStrD j "Type", Json.getNumD j "Latitude", Json.getNumD j "Longitude" with
  | .ok ty, .ok la, .ok lo => .ok ⟨ty, la, lo⟩
  | .error e, _, _ => .error e
  | _, .error e, _ => .error e
  | _, _, .error e => .error e

/-- json.Unmarshal of the Location pointer field: missing or null leaves the
pointer nil, an object decodes into the nested struct. -/
def hafasLocation.locationFieldFromJson (j : Json) : Except String (Option hafasInnerLocation) :=
  match Json.field? j "Location" with
  | none => .ok none
  | some .null => .ok none
  | some (.obj fields) => match hafasInnerLocation.fromJson (.obj fields) with
    | .ok l => .ok (some l)
    | .error e => .error e
  | some _ => .error "json: cannot unmarshal value into Location field"

/-- json.Unmarshal into hafasLocation. -/
def hafasLocation.fromJson (j : Json) : Except String hafasLocation :=
  match j with
  | .obj _ => do
    let ty ← Json.getStrD j "Type"
    let id ← Json.getStrD j "ID"
    let nm ← Json.getStrD j "Name"
    let ad ← Json.getStrD j "Address"
    let lp ← hafasLocation.locationFieldFromJson j
    let la ← Json.getNumD j "Latitude"
    let lo ← Json.getNumD j "Longitude"
    let poi ← Json.getBoolD j "POI"
    return ⟨ty, id, nm, ad, lp, la, lo, poi⟩
  | .null => .ok ⟨"", "", "", "", none, 0, 0, false⟩
  | _ => .error "json: cannot unmarshal value into hafasLocation"

/-- Location.MarshalJSON of generation B: build the hafasLocation with the
POI flag mirroring the kind, attach the nested coordinate object only for
kind stop, and marshal the result. -/
def V6.Location.MarshalJSON (loc : V6.Location) : Json :=
  let hLoc : hafasLocation :=
    { type := loc.type, ID := loc.ID, Name := loc.Name, Address := loc.Address,
      Location := none, Latitude := 0, Longitude := 0, POI := loc.type == "poi" }
  let hLoc := if loc.type == "stop" then
      { hLoc with Location := some ⟨"location", loc.Latitude, loc.Longitude⟩ }
    else hLoc
  hafasLocation.toJson hLoc

/-- Location.UnmarshalJSON of generation B: decode the hafasLocation, copy
the flat fields, then overwrite the coordinates from the nested object when
it is present. -/
def V6.Location.UnmarshalJSON (j : Json) : Except String V6.Location :=
  match hafasLocation.fromJson j with
  | .error e => .error ("failed to unmarshal location: " ++ e)
  | .ok h =>
    let loc : V6.Location :=
      { type := h.type, ID := h.ID, Name := h.Name, Address := h.Address,
        Latitude := h.Latitude, Longitude := h.Longitude, Distance := 0 }
    match h.Location with
    | some inner => .ok { loc with Latitude := inner.Latitude, Longitude := inner.Longitude }
    | none => .ok loc

/-! ### Generation B departures, arrivals and their decoding -/

/-- Departure of generation B; platforms are strings there.  The two
time.Time fields are only carried, never computed with, and are modelled by
their wire text. -/
structure V6.Departure where
  Direction : String
  When : String
  PlannedWhen : String
  Delay : Int
  Platform : String
  PlannedPlatform : String
  Line : Line
  deriving DecidableEq

instance : Inhabited V6.Departure := ⟨⟨"", "", "", 0, "", "", ⟨"", ""⟩⟩⟩

/-- json.Unmarshal into Line, defaulting both string fields. -/
def Line.fromJson (j : Json) : Except String Line :=
  match Json.getStrD j "Name", Json.getStrD j "Product" with
  | .ok nm, .ok pr => .ok ⟨nm, pr⟩
  | .error e, _ => .error e
  | _, .error e => .error e

/-- json.Unmarshal of the embedded Line struct field: missing or null leaves
the zero Line, an object decodes field-wise. -/
def Json.getLineD (j : Json) (name : String) : Except String Line :=
  match Json.field? j name with
  | none => .ok ⟨"", ""⟩
  | some .null => .ok ⟨"", ""⟩
  | some (.obj fields) => Line.fromJson (.obj fields)
  | some _ => .error "json: cannot unmarshal value into Line field"

/-- json.Unmarshal into a generation B Departure. -/
def V6.departureFromJson (j : Json) : Except String V6.Departure :=
  match j with
  | .null => .ok default
  | .obj _ => do
    let dir ← Json.getStrD j "Direction"
    let wh ← Json.getStrD j "When"
    let pw ← Json.getStrD j "PlannedWhen"
    let dl ← Json.getIntD j "Delay"
    let pf ← Json.getStrD j "Platform"
    let ppf ← Json.getStrD j "PlannedPlatform"
    let ln ← Json.getLineD j "Line"
    return ⟨dir, wh, pw, dl, pf, ppf, ln⟩
  | _ => .error "json: cannot unmarshal value into Departure"

/-- One element of the arrivals envelope: an embedded Departure plus the
Provenance field. -/
structure V6.ArrivalRecord where
  Departure : V6.Departure
  Provenance : String
  deriving DecidableEq

instance : Inhabited V6.ArrivalRecord := ⟨⟨default, ""⟩⟩

/-- json.Unmarshal into an arrival record: the embedded Departure fields live
at the same level as Provenance. -/
def V6.arrivalRecordFromJson (j : Json) : Except String V6.ArrivalRecord :=
  match j with
  | .null => .ok default
  | .obj _ => do
    let dep ← V6.departureFromJson j
    let prov ← Json.getStrD j "Provenance"
    return ⟨dep, prov⟩
  | _ => .error "json: cannot unmarshal value into arrival record"

/-- Decode of the generation B departures envelope struct, whose single field
is the Departures slice. -/
def V6.decodeDeparturesEnvelope (j : Json) : Except String (List V6.Departure) :=
  match j with
  | .null => .ok []
  | .obj _ =>
    match Json.field? j "Departures" with
    | none => .ok []
    | some v => decodeList V6.departureFromJson v
  | _ => .error "json: cannot unmarshal value into envelope"

/-- Decode of the generation B arrivals envelope struct, whose single field
is the Arrivals slice. -/
def V6.decodeArrivalsEnvelope (j : Json) : Except String (List V6.ArrivalRecord) :=
  match j with
  | .null => .ok []
  | .obj _ =>
    match Json.field? j "Arrivals" with
    | none => .ok []
    | some v => decodeList V6.arrivalRecordFromJson v
  | _ => .error "json: cannot unmarshal value into envelope"

/-- The post-decode loop of the generation B Arrivals method: when the
Direction of a record is empty it is replaced by the Provenance value, and
the embedded Departure is appended to the result. -/
def V6.normalizeArrivals : List V6.ArrivalRecord → List V6.Departure
  | [] => []
  | a :: rest =>
    (if a.Departure.Direction = "" then { a.Departure with Direction := a.Provenance }
     else a.Departure) :: V6.normalizeArrivals rest

/-! ### The transport boundary and the response phase of each operation -/

/-- Outcome of handing a request to the injected http.Client: either a
transport-level failure, or a response carrying a status code and a body.
The body is modelled as parsed JSON, which covers every response this file
reasons about. -/
inductive TransportResult where
  | failure : String → TransportResult
  | response : Nat → Json → TransportResult

/-- sendRequest, identical in both generations: a transport failure is
surfaced as an error, and otherwise the response body is returned with the
status code never inspected. -/
def Client.sendRequest : TransportResult → Except String Json
  | .failure msg => .error msg
  | .response _status body => .ok body

/-- The two error kinds of the client: a RequestError from building or
executing the call, and a DecodeError from decoding the body. -/
inductive VBBError where
  | RequestError : String → VBBError
  | DecodeError : String → VBBError
  deriving DecidableEq

/-- Discriminator for the RequestError kind of an operation result. -/
def isRequestError {α : Type} : Except VBBError α → Bool
  | .error (.RequestError _) => true
  | .error (.DecodeError _) => false
  | .ok _ => false

/-- Response phase of the generation B Locations method: route a transport
failure to a RequestError, decode the body as a slice of locations, and
route a decode failure to a DecodeError. -/
def V6.locationsResult (resp : TransportResult) : Except VBBError (List V6.Location) :=
  match Client.sendRequest resp with
  | .error m => .error (.RequestError ("failed to retrieve locations: " ++ m))
  | .ok body =>
    match decodeList V6.Location.UnmarshalJSON body with
    | .error m => .error (.DecodeError ("failed to decode response: " ++ m))
    | .ok res => .ok res

/-- Response phase of the generation B StopsNearby method; decoding is the
same slice-of-locations decode as the Locations method. -/
def V6.stopsNearbyResult (resp : TransportResult) : Except VBBError (List V6.Location) :=
  match Client.sendRequest resp with
  | .error m => .error (.RequestError ("failed to retrieve stops nearby: " ++ m))
  | .ok body =>
    match decodeList V6.Location.UnmarshalJSON body with
    | .error m => .error (.DecodeError ("failed to decode response: " ++ m))
    | .ok res => .ok res

/-- Response phase of the generation B Departures method. -/
def V6.departuresResult (resp : TransportResult) : Except VBBError (List V6.Departure) :=
  match Client.sendRequest resp with
  | .error m => .error (.RequestError ("failed to retrieve departures: " ++ m))
  | .ok body =>
    match V6.decodeDeparturesEnvelope body with
    | .error m => .error (.DecodeError ("failed to decode response: " ++ m))
    | .ok res => .ok res

/-- Response phase of the generation B Arrivals method, including the
direction normalization loop. -/
def V6.arrivalsResult (resp : TransportResult) : Except VBBError (List V6.Departure) :=
  match Client.sendRequest resp with
  | .error m => .error (.RequestError ("failed to retrieve arrivals: " ++ m))
  | .ok body =>
    match V6.decodeArrivalsEnvelope body with
    | .error m => .error (.DecodeError ("failed to decode response: " ++ m))
    | .ok recs => .ok (V6.normalizeArrivals recs)

/-- json.Unmarshal into a generation A Location (plain struct decoding). -/
def V5.locationFromJson (j : Json) : Except String V5.Location :=
  match j with
  | .null => .ok ⟨"", "", "", ""⟩
  | .obj _ => do
    let ty ← Json.getStrD j "Type"
    let id ← Json.getStrD j "ID"
    let nm ← Json.getStrD j "Name"
    let ad ← Json.getStrD j "Address"
    return ⟨ty, id, nm, ad⟩
  | _ => .error "json: cannot unmarshal value into Location"

/-- Response phase of the generation A Locations method. -/
def V5.locationsResult (resp : TransportResult) : Except VBBError (List V5.Location) :=
  match Client.sendRequest resp with
  | .error m => .error (.RequestError ("failed to retrieve locations: " ++ m))
  | .ok body =>
    match decodeList V5.locationFromJson body with
    | .error m => .error (.DecodeError ("failed to decode response: " ++ m))
    | .ok res => .ok res

/-! ### Observers and sample values used by the statements below -/

/-- Path component of a request URL: everything before the first question
mark, which is where an HTTP request line ends the path. -/
def urlPath (s : String) : String := String.mk (s.data.takeWhile (fun c => c != '?'))

/-- Character membership as a boolean. -/
def hasChar (cs : List Char) (c : Char) : Bool := cs.any (fun x => x == c)

/-- Boolean read-out of a POI flag field the way a decoder sees it: an
absent or non-boolean field reads as false. -/
def Json.poiFlag (j : Json) : Bool :=
  match Json.field? j "POI" with
  | some (.bool b) => b
  | _ => false

/-- Sample stop location used by witnesses. -/
def sampleStop : V6.Location :=
  ⟨"stop", "900000100003", "S+U Alexanderplatz", "", (52.5 : Rat), (134 / 10 : Rat), 0⟩

/-- Sample arrival record used by witnesses. -/
def sampleArrival : V6.ArrivalRecord :=
  ⟨⟨"", "2021-05-01T12:03:00+02:00", "2021-05-01T12:00:00+02:00", 180, "4", "3", ⟨"S7", "suburban"⟩⟩,
   "Ahrensfelde"⟩

/-! ### Helper lemmas -/

theorem natDigitsAux_mem {fuel n : Nat} {c : Char} (hc : c ∈ natDigitsAux fuel n) :
    ∃ d, d < 10 ∧ c = digitChar d := by
  induction fuel generalizing n with
  | zero => simp [natDigitsAux] at hc
  | succ fuel ih =>
    rw [natDigitsAux] at hc
    split at hc
    · next h => simp only [List.mem_singleton] at hc; exact ⟨n, h, hc⟩
    · next h =>
      rcases List.mem_append.mp hc with h1 | h1
      · exact ih h1
      · simp only [List.mem_singleton] at h1
        exact ⟨n % 10, Nat.mod_lt _ (by decide), h1⟩

theorem digitChar_ne_Z {d : Nat} (hd : d < 10) : digitChar d ≠ 'Z' := by
  interval_cases d <;> decide

theorem padNat_ne_Z {w n : Nat} {c : Char} (hc : c ∈ padNat w n) : c ≠ 'Z' := by
  rw [padNat] at hc
  rcases List.mem_append.mp hc with h | h
  · rw [List.eq_of_mem_replicate h]; decide
  · obtain ⟨d, hd, rfl⟩ := natDigitsAux_mem h
    exact digitChar_ne_Z hd

theorem tzNumeric_ne_Z {o : Int} {c : Char} (hc : c ∈ tzNumeric o) : c ≠ 'Z' := by
  rw [tzNumeric] at hc
  rcases List.mem_cons.mp hc with h | h
  · subst h; split <;> decide
  · rcases List.mem_append.mp h with h1 | h1 <;> exact padNat_ne_Z h1

theorem goFormat_whenLayoutV6_data (t : GoTime) :
    (goFormat whenLayoutV6 t).data
      = padNat 4 t.year ++ '-' :: padNat 2 t.month ++ '-' :: padNat 2 t.day
        ++ 'T' :: padNat 2 t.hour ++ ':' :: padNat 2 t.minute ++ ':' :: padNat 2 t.second
        ++ tzNumeric t.offsetMinutes := by
  show padNat 4 t.year ++ '-' :: (padNat 2 t.month ++ '-' :: (padNat 2 t.day
        ++ 'T' :: (padNat 2 t.hour ++ ':' :: (padNat 2 t.minute ++ ':' :: (padNat 2 t.second
        ++ (tzNumeric t.offsetMinutes ++ [])))))) = _
  simp

theorem goFormat_whenLayoutV6_ne_Z (t : GoTime) {c : Char}
    (hc : c ∈ (goFormat whenLayoutV6 t).data) : c ≠ 'Z' := by
  rw [goFormat_whenLayoutV6_data] at hc
  simp only [List.mem_append, List.mem_cons] at hc
  rcases hc with ((((((h | h) | h) | h) | h) | h) | h)
  · exact padNat_ne_Z h
  · rcases h with h | h
    · subst h; decide
    · exact padNat_ne_Z h
  · rcases h with h | h
    · subst h; decide
    · exact padNat_ne_Z h
  · rcases h with h | h
    · subst h; decide
    · exact padNat_ne_Z h
  · rcases h with h | h
    · subst h; decide
    · exact padNat_ne_Z h
  · rcases h with h | h
    · subst h; decide
    · exact padNat_ne_Z h
  · exact tzNumeric_ne_Z h

theorem hasChar_eq_false {cs : List Char} {c : Char} (h : ∀ x ∈ cs, x ≠ c) :
    hasChar cs c = false := by
  simp only [hasChar, List.any_eq_false, beq_iff_eq]
  exact h

theorem normalizeArrivals_length (recs : List V6.ArrivalRecord) :
    (V6.normalizeArrivals recs).length = recs.length := by
  induction recs with
  | nil => rfl
  | cons a rest ih => simp [V6.normalizeArrivals, ih]

theorem normalizeArrivals_getD (recs : List V6.ArrivalRecord) (i : Nat) (h : i < recs.length) :
    (V6.normalizeArrivals recs).getD i default
      = (if (recs.getD i default).Departure.Direction = ""
         then { (recs.getD i default).Departure with Direction := (recs.getD i default).Provenance }
         else (recs.getD i default).Departure) := by
  induction recs generalizing i with
  | nil => simp at h
  | cons a rest ih =>
    cases i with
    | zero => simp [V6.normalizeArrivals]
    | succ i => simpa [V6.normalizeArrivals] using ih i (by simpa using h)

theorem addTransportTypeParams_nil_eq (tt : TransportationType) :
    addTransportTypeParams [] tt
      = [("regional", formatBool (uint8And tt RegionalTrain != 0)),
         ("express", formatBool (uint8And tt ExpressTrain != 0)),
         ("ferry", formatBool (uint8And tt Ferry != 0)),
         ("bus", formatBool (uint8And tt Bus != 0)),
         ("tram", formatBool (uint8And tt Tram != 0)),
         ("subway", formatBool (uint8And tt Subway != 0)),
         ("suburban", formatBool (uint8And tt SuburbanTrain != 0))] := by
  simp +decide [addTransportTypeParams, Values.set]

theorem V5_departuresQuery_eq (t : GoTime) (d : Int) (tt : TransportationType) :
    V5.departuresQuery t d tt
      = [("regional", formatBool (uint8And tt RegionalTrain != 0)),
         ("express", formatBool (uint8And tt ExpressTrain != 0)),
         ("ferry", formatBool (uint8And tt Ferry != 0)),
         ("bus", formatBool (uint8And tt Bus != 0)),
         ("tram", formatBool (uint8And tt Tram != 0)),
         ("subway", formatBool (uint8And tt Subway != 0)),
         ("suburban", formatBool (uint8And tt SuburbanTrain != 0)),
         ("pretty", "false"),
         ("duration", intToStr (roundHalfEvenDiv d nsPerMinute)),
         ("when", goFormat RFC3339 t)] := by
  simp +decide [V5.departuresQuery, Values.set]

theorem V6_departuresQuery_eq (t : GoTime) (d : Int) (tt : TransportationType) :
    V6.departuresQuery t d tt
      = [("pretty", "false"),
         ("duration", intToStr (truncDiv d nsPerMinute)),
         ("when", goFormat whenLayoutV6 t),
         ("regional", formatBool (uint8And tt RegionalTrain != 0)),
         ("express", formatBool (uint8And tt ExpressTrain != 0)),
         ("ferry", formatBool (uint8And tt Ferry != 0)),
         ("bus", formatBool (uint8And tt Bus != 0)),
         ("tram", formatBool (uint8And tt Tram != 0)),
         ("subway", formatBool (uint8And tt Subway != 0)),
         ("suburban", formatBool (uint8And tt SuburbanTrain != 0))] := by
  rw [show V6.departuresQuery t d tt
      = Values.set (Values.set (Values.set (addTransportTypeParams [] tt)
          "when" (goFormat whenLayoutV6 t))
          "duration" (intToStr (truncDiv d nsPerMinute)))
          "pretty" "false" from rfl,
     addTransportTypeParams_nil_eq]
  simp +decide [Values.set]

theorem V5_arrivalsQuery_eq_departuresQuery (t : GoTime) (d : Int) (tt : TransportationType) :
    V5.arrivalsQuery t d tt = V5.departuresQuery t d tt := rfl

theorem V6_arrivalsQuery_eq_departuresQuery (t : GoTime) (d : Int) (tt : TransportationType) :
    V6.arrivalsQuery t d tt = V6.departuresQuery t d tt := rfl

/-! ### Claim theorems -/

/-- C1: the claim states that each of the seven mode parameters is true
exactly when the mode is a member of the bitset, and that UrbanTransport
yields express false.  The source declares the constants as 1 shifted by
iota plus 1, which makes them overlap on the lowest bit: UrbanTransport is
95, ExpressTrain is 33, their conjunction is 1, so both generations encode
express as the literal true for UrbanTransport, and UrbanTransport produces
exactly the same seven parameters as AllTransport.  This theorem evaluates
the code at the failing input. -/
theorem c1_urbanTransport_express_eval :
    Values.lookup (addTransportTypeParams [] UrbanTransport) "express" = some "true"
    ∧ Values.lookup (V5.departuresQuery ⟨2021, 5, 1, 12, 0, 0, 0⟩ 600000000000 UrbanTransport)
        "express" = some "true"
    ∧ addTransportTypeParams [] UrbanTransport = addTransportTypeParams [] AllTransport
    ∧ uint8And UrbanTransport ExpressTrain = 1
    ∧ UrbanTransport = 95 ∧ ExpressTrain = 33 :=
  ⟨rfl, rfl, rfl, rfl, rfl, rfl⟩

/-- C3: in generation A, Departures and Arrivals build the when, duration and
mode query values, but the outgoing request URL is exactly the endpoint
concatenated with /stops/, the stop identifier and the operation path, with
no query string appended, for every input. -/
theorem c3_v5_query_never_appended (endpoint stopID : String) (t : GoTime) (d : Int)
    (tt : TransportationType) :
    (V5.departuresRequest endpoint stopID t d tt).2
      = endpoint ++ "/stops/" ++ stopID ++ "/departures"
    ∧ (V5.arrivalsRequest endpoint stopID t d tt).2
      = endpoint ++ "/stops/" ++ stopID ++ "/arrivals"
    ∧ Values.lookup (V5.departuresQuery t d tt) "when" = some (goFormat RFC3339 t)
    ∧ Values.lookup (V5.departuresQuery t d tt) "duration"
        = some (intToStr (roundHalfEvenDiv d nsPerMinute))
    ∧ Values.lookup (V5.departuresQuery t d tt) "suburban"
        = some (formatBool (uint8And tt SuburbanTrain != 0)) := by
  refine ⟨rfl, rfl, ?_, ?_, ?_⟩ <;> rw [V5_departuresQuery_eq] <;> simp +decide [Values.lookup]

/-- C10: both generations splice the stop identifier into the request URL by
plain string concatenation with no percent escaping, so an identifier
containing a question mark truncates the path there and one containing a
slash introduces an extra path segment, as the two concrete instances
show. -/
theorem c10_stopID_spliced_unescaped (endpoint stopID : String) (t : GoTime) (d : Int)
    (tt : TransportationType) :
    (V6.departuresRequest endpoint stopID t d tt).2
      = endpoint ++ "/stops/" ++ stopID ++ "/departures?" ++ Values.encode (V6.departuresQuery t d tt)
    ∧ (V6.arrivalsRequest endpoint stopID t d tt).2
      = endpoint ++ "/stops/" ++ stopID ++ "/arrivals?" ++ Values.encode (V6.arrivalsQuery t d tt)
    ∧ (V5.departuresRequest endpoint stopID t d tt).2
      = endpoint ++ "/stops/" ++ stopID ++ "/departures"
    ∧ urlPath (V6.departuresRequest "" "a?b" ⟨2021, 5, 1, 12, 0, 0, 0⟩ 600000000000 AllTransport).2
        = "/stops/a"
    ∧ urlPath (V6.departuresRequest "" "a/b" ⟨2021, 5, 1, 12, 0, 0, 0⟩ 600000000000 AllTransport).2
        = "/stops/a/b/departures" :=
  ⟨rfl, rfl, rfl, rfl, rfl⟩

/-- C5: for every decoded arrival record, the exposed Direction is the
Provenance value when the direction field of the record is empty, and the
unchanged direction field otherwise. -/
theorem c5_arrival_direction_fallback (recs : List V6.ArrivalRecord) (i : Fin recs.length) :
    ((V6.normalizeArrivals recs).getD i default).Direction
      = (if (recs.getD i default).Departure.Direction = ""
         then (recs.getD i default).Provenance
         else (recs.getD i default).Departure.Direction) := by
  rw [normalizeArrivals_getD recs i i.isLt]
  split <;> rfl

/-- C9: the arrivals normalization changes at most the Direction field: the
number of records is preserved, and at every index the When, PlannedWhen,
Delay, Platform, PlannedPlatform and Line fields of the exposed Departure
equal those of the decoded record. -/
theorem c9_normalize_preserves_other_fields (recs : List V6.ArrivalRecord) :
    (V6.normalizeArrivals recs).length = recs.length
    ∧ ∀ i : Fin recs.length,
        ((V6.normalizeArrivals recs).getD i default).When
            = (recs.getD i default).Departure.When
        ∧ ((V6.normalizeArrivals recs).getD i default).PlannedWhen
            = (recs.getD i default).Departure.PlannedWhen
        ∧ ((V6.normalizeArrivals recs).getD i default).Delay
            = (recs.getD i default).Departure.Delay
        ∧ ((V6.normalizeArrivals recs).getD i default).Platform
            = (recs.getD i default).Departure.Platform
        ∧ ((V6.normalizeArrivals recs).getD i default).PlannedPlatform
            = (recs.getD i default).Departure.PlannedPlatform
        ∧ ((V6.normalizeArrivals recs).getD i default).Line
            = (recs.getD i default).Departure.Line := by
  refine ⟨normalizeArrivals_length recs, fun i => ?_⟩
  rw [normalizeArrivals_getD recs i i.isLt]
  split <;> exact ⟨rfl, rfl, rfl, rfl, rfl, rfl⟩

/-- C2 counterexample: a response with a non-success status code is not
surfaced as a RequestError; a 404 with an empty array body and a 500 with an
empty envelope body both decode to successful empty results. -/
theorem c2_counterexample_status_ignored :
    V6.locationsResult (.response 404 (.arr [])) = .ok []
    ∧ V6.departuresResult (.response 500 (.obj [("departures", .arr [])])) = .ok []
    ∧ isRequestError (V6.locationsResult (.response 404 (.arr []))) = false :=
  ⟨rfl, rfl, rfl⟩

/-- C2 amended: a RequestError arises only when the transport itself fails;
the shared sendRequest helper returns the body for every status code without
inspecting it, no operation maps a response to a RequestError whatever the
status and body, and an empty result body decodes to a successful empty
sequence. -/
theorem c2_request_error_only_from_transport :
    (∀ m, Client.sendRequest (.failure m) = .error m)
    ∧ (∀ status body, Client.sendRequest (.response status body) = .ok body)
    ∧ (∀ status body, isRequestError (V6.locationsResult (.response status body)) = false)
    ∧ (∀ status body, isRequestError (V6.stopsNearbyResult (.response status body)) = false)
    ∧ (∀ status body, isRequestError (V6.departuresResult (.response status body)) = false)
    ∧ (∀ status body, isRequestError (V6.arrivalsResult (.response status body)) = false)
    ∧ (∀ status body, isRequestError (V5.locationsResult (.response status body)) = false)
    ∧ (∀ m, V6.locationsResult (.failure m)
        = .error (.RequestError ("failed to retrieve locations: " ++ m)))
    ∧ (∀ status, V6.locationsResult (.response status (.arr [])) = .ok [])
    ∧ (∀ status, V6.departuresResult (.response status (.obj [("departures", .arr [])])) = .ok [])
    ∧ (∀ status, V6.arrivalsResult (.response status (.obj [("arrivals", .arr [])])) = .ok [])
    ∧ (∀ status, V5.locationsResult (.response status (.arr [])) = .ok []) := by
  refine ⟨fun m => rfl, fun s b => rfl, ?_, ?_, ?_, ?_, ?_,
    fun m => rfl, fun s => rfl, fun s => rfl, fun s => rfl, fun s => rfl⟩
  · intro s b
    cases h : decodeList V6.Location.UnmarshalJSON b <;>
      simp [V6.locationsResult, Client.sendRequest, h, isRequestError]
  · intro s b
    cases h : decodeList V6.Location.UnmarshalJSON b <;>
      simp [V6.stopsNearbyResult, Client.sendRequest, h, isRequestError]
  · intro s b
    cases h : V6.decodeDeparturesEnvelope b <;>
      simp [V6.departuresResult, Client.sendRequest, h, isRequestError]
  · intro s b
    cases h : V6.decodeArrivalsEnvelope b <;>
      simp [V6.arrivalsResult, Client.sendRequest, h, isRequestError]
  · intro s b
    cases h : decodeList V5.locationFromJson b <;>
      simp [V5.locationsResult, Client.sendRequest, h, isRequestError]

/-- C6 amended: generation B encodes the when parameter through the layout
2006-01-02T15:04:05-0700, producing the date and time fields zero-padded and
joined by the fixed separators followed by a sign and four offset digits,
and the encoded value never contains the character Z; generation A instead
formats the when value with the RFC3339 layout. -/
theorem c6_when_encoding (t : GoTime) (d : Int) (tt : TransportationType) :
    Values.lookup (V6.departuresQuery t d tt) "when" = some (goFormat whenLayoutV6 t)
    ∧ Values.lookup (V6.arrivalsQuery t d tt) "when" = some (goFormat whenLayoutV6 t)
    ∧ (goFormat whenLayoutV6 t).data
        = padNat 4 t.year ++ '-' :: padNat 2 t.month ++ '-' :: padNat 2 t.day
          ++ 'T' :: padNat 2 t.hour ++ ':' :: padNat 2 t.minute ++ ':' :: padNat 2 t.second
          ++ tzNumeric t.offsetMinutes
    ∧ hasChar (goFormat whenLayoutV6 t).data 'Z' = false
    ∧ Values.lookup (V5.departuresQuery t d tt) "when" = some (goFormat RFC3339 t) := by
  refine ⟨?_, ?_, goFormat_whenLayoutV6_data t,
    hasChar_eq_false (fun x hx => goFormat_whenLayoutV6_ne_Z t hx), ?_⟩
  · rw [V6_departuresQuery_eq]; simp +decide [Values.lookup]
  · rw [V6_arrivalsQuery_eq_departuresQuery, V6_departuresQuery_eq]
    simp +decide [Values.lookup]
  · rw [V5_departuresQuery_eq]; simp +decide [Values.lookup]

/-- C6 counterexample: generation A formats the when parameter with RFC3339,
so a UTC reference time is encoded with a Z suffix, contradicting the claim
that the operations never emit a Z suffix. -/
theorem c6_counterexample_rfc3339_Z :
    Values.lookup (V5.departuresQuery ⟨2021, 5, 1, 12, 0, 0, 0⟩ 600000000000 AllTransport) "when"
      = some "2021-05-01T12:00:00Z"
    ∧ hasChar ("2021-05-01T12:00:00Z").data 'Z' = true :=
  ⟨rfl, rfl⟩

/-- C8 amended: generation B encodes the duration parameter as the number of
whole minutes truncated toward zero, that is the unique m with m minutes at
most the duration and the duration below m plus one minutes for nonnegative
durations; generation A instead rounds the minute count to the nearest
integer with ties to even. -/
theorem c8_duration_truncated_only_in_v6 (t : GoTime) (d : Int) (tt : TransportationType)
    (h : 0 ≤ d) :
    ∃ m : Int,
      Values.lookup (V6.departuresQuery t d tt) "duration" = some (intToStr m)
      ∧ Values.lookup (V6.arrivalsQuery t d tt) "duration" = some (intToStr m)
      ∧ m * (nsPerMinute : Int) ≤ d ∧ d < (m + 1) * (nsPerMinute : Int)
      ∧ Values.lookup (V5.departuresQuery t d tt) "duration"
          = some (intToStr (roundHalfEvenDiv d nsPerMinute)) := by
  have hB : (0 : Nat) < nsPerMinute := by decide
  have hdm := Nat.div_add_mod d.toNat nsPerMinute
  have hr := Nat.mod_lt d.toNat hB
  have htn : ((d.toNat : Int)) = d := Int.toNat_of_nonneg h
  have ht : truncDiv d nsPerMinute = ((d.toNat / nsPerMinute : Nat) : Int) := by
    rw [truncDiv, if_neg (not_lt.mpr h)]
  refine ⟨truncDiv d nsPerMinute, ?_, ?_, ?_, ?_, ?_⟩
  · rw [V6_departuresQuery_eq]; simp +decide [Values.lookup]
  · rw [V6_arrivalsQuery_eq_departuresQuery, V6_departuresQuery_eq]
    simp +decide [Values.lookup]
  · rw [ht]; simp only [nsPerMinute] at hdm hr ⊢; omega
  · rw [ht]; simp only [nsPerMinute] at hdm hr ⊢; omega
  · rw [V5_departuresQuery_eq]; simp +decide [Values.lookup]

/-- C8 witness: the amended duration claim applied at a duration of ninety
seconds. -/
theorem c8_duration_truncated_only_in_v6_witness :
    (0 : Int) ≤ 90000000000
    ∧ ∃ m : Int,
      Values.lookup (V6.departuresQuery ⟨2021, 5, 1, 12, 0, 0, 0⟩ 90000000000 AllTransport)
          "duration" = some (intToStr m)
      ∧ Values.lookup (V6.arrivalsQuery ⟨2021, 5, 1, 12, 0, 0, 0⟩ 90000000000 AllTransport)
          "duration" = some (intToStr m)
      ∧ m * (nsPerMinute : Int) ≤ 90000000000
      ∧ (90000000000 : Int) < (m + 1) * (nsPerMinute : Int)
      ∧ Values.lookup (V5.departuresQuery ⟨2021, 5, 1, 12, 0, 0, 0⟩ 90000000000 AllTransport)
          "duration" = some (intToStr (roundHalfEvenDiv 90000000000 nsPerMinute)) :=
  ⟨by decide,
   c8_duration_truncated_only_in_v6 ⟨2021, 5, 1, 12, 0, 0, 0⟩ 90000000000 AllTransport (by decide)⟩

/-- C8 counterexample: at a duration of ninety seconds, one and a half
minutes, generation A encodes the duration parameter as 2 while truncation
to whole minutes yields 1; FormatFloat at precision zero rounds instead of
truncating. -/
theorem c8_counterexample_v5_rounds :
    Values.lookup (V5.departuresQuery ⟨2021, 5, 1, 12, 0, 0, 0⟩ 90000000000 AllTransport)
        "duration" = some "2"
    ∧ truncDiv 90000000000 nsPerMinute = 1 :=
  ⟨rfl, rfl⟩

/-- Marshalled form of a stop location: flat Type, ID, Name, the optional
Address, and the nested coordinate object; the top-level coordinates of the
wire struct stay at their omitted zero values and the POI flag is false. -/
theorem MarshalJSON_stop (loc : V6.Location) (h : loc.type = "stop") :
    V6.Location.MarshalJSON loc
      = Json.obj ([("Type", Json.str loc.type), ("ID", Json.str loc.ID), ("Name", Json.str loc.Name)]
        ++ (if loc.Address = "" then [] else [("Address", Json.str loc.Address)])
        ++ [("Location", Json.obj [("Type", Json.str "location"),
              ("Latitude", Json.num loc.Latitude), ("Longitude", Json.num loc.Longitude)])]) := by
  simp +decide [V6.Location.MarshalJSON, hafasLocation.toJson, hafasInnerLocation.toJson, h]

/-- Marshalled form of a non-stop location: no nested coordinate object, and
a POI entry exactly when the kind is poi. -/
theorem MarshalJSON_not_stop (loc : V6.Location) (h : ¬ loc.type = "stop") :
    V6.Location.MarshalJSON loc
      = Json.obj ([("Type", Json.str loc.type), ("ID", Json.str loc.ID), ("Name", Json.str loc.Name)]
        ++ (if loc.Address = "" then [] else [("Address", Json.str loc.Address)])
        ++ (if loc.type == "poi" then [("POI", Json.bool true)] else [])) := by
  simp +decide [V6.Location.MarshalJSON, hafasLocation.toJson, hafasInnerLocation.toJson,
    beq_eq_false_iff_ne.mpr h]

/-- Unmarshalling the marshalled form of a stop location restores every field
except Distance, which is absent from the wire shape and left at zero; the
coordinates are restored from the nested object. -/
theorem UnmarshalJSON_MarshalJSON_stop (loc : V6.Location) (h : loc.type = "stop") :
    V6.Location.UnmarshalJSON (V6.Location.MarshalJSON loc)
      = .ok { type := loc.type, ID := loc.ID, Name := loc.Name, Address := loc.Address,
              Latitude := loc.Latitude, Longitude := loc.Longitude, Distance := 0 } := by
  rw [MarshalJSON_stop loc h]
  by_cases hA : loc.Address = ""
  · simp only [hA, if_pos rfl, List.nil_append, List.cons_append]; rfl
  · simp only [if_neg hA, List.cons_append, List.nil_append]; rfl

/-- C4: marshalling a stop location and unmarshalling the result yields a
location equal in kind, identifier, name, latitude and longitude to the
original, and the marshalled form carries the nested coordinate object whose
latitude and longitude equal the coordinates of the original location. -/
theorem c4_stop_marshal_round_trip (loc : V6.Location) (h : loc.type = "stop") :
    (∃ loc₂, V6.Location.UnmarshalJSON (V6.Location.MarshalJSON loc) = .ok loc₂
      ∧ loc₂.type = loc.type ∧ loc₂.ID = loc.ID ∧ loc₂.Name = loc.Name
      ∧ loc₂.Latitude = loc.Latitude ∧ loc₂.Longitude = loc.Longitude)
    ∧ (∃ sub, (V6.Location.MarshalJSON loc).field? "Location" = some sub
        ∧ sub.field? "Latitude" = some (.num loc.Latitude)
        ∧ sub.field? "Longitude" = some (.num loc.Longitude)) := by
  constructor
  · exact ⟨_, UnmarshalJSON_MarshalJSON_stop loc h, rfl, rfl, rfl, rfl, rfl⟩
  · rw [MarshalJSON_stop loc h]
    refine ⟨Json.obj [("Type", Json.str "location"),
      ("Latitude", Json.num loc.Latitude), ("Longitude", Json.num loc.Longitude)], ?_, rfl, rfl⟩
    by_cases hA : loc.Address = ""
    · simp only [hA, if_pos rfl, List.nil_append, List.cons_append]; rfl
    · simp only [if_neg hA, List.cons_append, List.nil_append]; rfl

/-- C4 witness: the round-trip claim applied to a concrete stop location. -/
theorem c4_stop_marshal_round_trip_witness :
    sampleStop.type = "stop"
    ∧ ((∃ loc₂, V6.Location.UnmarshalJSON (V6.Location.MarshalJSON sampleStop) = .ok loc₂
        ∧ loc₂.type = sampleStop.type ∧ loc₂.ID = sampleStop.ID ∧ loc₂.Name = sampleStop.Name
        ∧ loc₂.Latitude = sampleStop.Latitude ∧ loc₂.Longitude = sampleStop.Longitude)
      ∧ (∃ sub, (V6.Location.MarshalJSON sampleStop).field? "Location" = some sub
          ∧ sub.field? "Latitude" = some (.num sampleStop.Latitude)
          ∧ sub.field? "Longitude" = some (.num sampleStop.Longitude))) :=
  ⟨rfl, c4_stop_marshal_round_trip sampleStop rfl⟩

/-- C7: in the marshalled form of any generation B location, the nested
coordinate object is present exactly when the kind is stop, and the POI flag
reads true exactly when the kind is poi, reading false for every other
kind. -/
theorem c7_nested_object_iff_stop_poi_flag_iff_poi (loc : V6.Location) :
    (((V6.Location.MarshalJSON loc).field? "Location").isSome ↔ loc.type = "stop")
    ∧ ((Json.poiFlag (V6.Location.MarshalJSON loc) = true) ↔ loc.type = "poi") := by
  by_cases hs : loc.type = "stop"
  · rw [MarshalJSON_stop loc hs]
    by_cases hA : loc.Address = "" <;>
      simp +decide [hA, hs, Json.field?, Json.poiFlag]
  · rw [MarshalJSON_not_stop loc hs]
    by_cases hp : loc.type = "poi" <;> by_cases hA : loc.Address = "" <;>
      simp +decide [hA, hp, hs, Json.field?, Json.poiFlag]

/-- Witness for the arrival direction fallback, applied to a concrete
record whose direction is empty. -/
theorem c5_arrival_direction_fallback_witness :
    ((V6.normalizeArrivals [sampleArrival]).getD 0 default).Direction
      = (if ([sampleArrival].getD 0 default).Departure.Direction = ""
         then ([sampleArrival].getD 0 default).Provenance
         else ([sampleArrival].getD 0 default).Departure.Direction) :=
  c5_arrival_direction_fallback [sampleArrival] ⟨0, by decide⟩

/-- Witness for the frame property of the arrivals normalization, applied to
a concrete record list. -/
theorem c9_normalize_preserves_other_fields_witness :
    (V6.normalizeArrivals [sampleArrival]).length = [sampleArrival].length
    ∧ ((V6.normalizeArrivals [sampleArrival]).getD 0 default).When
        = ([sampleArrival].getD 0 default).Departure.When
    ∧ ((V6.normalizeArrivals [sampleArrival]).getD 0 default).Line
        = ([sampleArrival].getD 0 default).Departure.Line :=
  ⟨(c9_normalize_preserves_other_fields [sampleArrival]).1,
   ((c9_normalize_preserves_other_fields [sampleArrival]).2 ⟨0, by decide⟩).1,
   ((c9_normalize_preserves_other_fields [sampleArrival]).2 ⟨0, by decide⟩).2.2.2.2.2⟩
